import Mathlib

/-
  Verification development for the contacts-management web API
  (goit-pythonweb-hw-12).  The Python sources under src/ are shallowly
  embedded: database tables become lists of records, the Redis session
  cache becomes an association list of keys with absolute expiry times,
  timestamps are integer Unix seconds (Nat), and fallible code returns
  Except.  Opaque cryptographic primitives (bcrypt verification, SHA-256,
  JWT signature checking) are parameters of the functions that use them,
  matching the fact that the application code treats them as black boxes.
-/

namespace HW12

/-- fastapi.HTTPException as raised by the services: a status code and a
detail message. -/
structure HTTPException where
  status_code : Nat
  detail : String
deriving DecidableEq, Repr

/-- Python-level exceptions that can escape the service code paths we model:
an HTTPException, the TypeError raised by the TTL subtraction in cache_user
when exp is None, the client connection error raised when the Redis write
fails, the Redis server error for SETEX with a non-positive TTL, and the
AttributeError raised by attribute access on None. -/
inductive PyError where
  | http (e : HTTPException)
  | typeError
  | connectionError
  | responseError
  | attributeError
deriving DecidableEq, Repr

/-- src/entity/models.py Role enum. -/
inductive Role where
  | user
  | admin
deriving DecidableEq, Repr

/-- src/entity/models.py User row as stored in the database: every column
present, avatar nullable. -/
structure UserRec where
  id : Nat
  username : String
  email : String
  hash_password : String
  avatar : Option String
  confirmed : Bool
  role : Role
deriving DecidableEq, Repr

/-- A transient SQLAlchemy User object as constructed in Python by
User(**kwargs): any column not passed to the constructor is None until the
object is flushed, so every attribute is optional here. -/
structure UserObj where
  id : Option Nat
  username : Option String
  email : Option String
  hash_password : Option String
  avatar : Option String
  confirmed : Option Bool
  role : Option Role
deriving DecidableEq, Repr

/-- The JSON payload written by cache_user (src/services/cache_user.py):
exactly the keys id, email, username, avatar, confirmed. -/
structure CachedUser where
  id : Nat
  email : String
  username : String
  avatar : Option String
  confirmed : Bool
deriving DecidableEq, Repr

/-- The user_data dict built inside cache_user from the ORM user. -/
def mkCachedUser (u : UserRec) : CachedUser :=
  { id := u.id
    email := u.email
    username := u.username
    avatar := u.avatar
    confirmed := u.confirmed }

/-- User(**json.loads(cached_user)) on a cache hit in get_current_user:
only the five cached keys are passed, so hash_password and role are None
on the constructed object. -/
def userFromCache (cu : CachedUser) : UserObj :=
  { id := some cu.id
    username := some cu.username
    email := some cu.email
    hash_password := none
    avatar := cu.avatar
    confirmed := some cu.confirmed
    role := none }

/-- View of a fully loaded ORM user (the database path of
get_current_user): every column is populated from the row. -/
def toUserObj (u : UserRec) : UserObj :=
  { id := some u.id
    username := some u.username
    email := some u.email
    hash_password := some u.hash_password
    avatar := u.avatar
    confirmed := some u.confirmed
    role := some u.role }

/-- UserRepository.get_by_username: SELECT User WHERE username = x,
scalar_one_or_none; usernames carry a unique constraint, so the first
match is the row. -/
def get_by_username (db : List UserRec) (username : String) : Option UserRec :=
  db.find? (fun u => u.username == username)

/-- UserRepository.get_user_by_email: SELECT User WHERE email = x,
scalar_one_or_none; emails carry a unique constraint. -/
def get_user_by_email (db : List UserRec) (email : String) : Option UserRec :=
  db.find? (fun u => u.email == email)

/-- AuthService.authenticate (src/services/auth.py).  The bcrypt check
_verify_password is an opaque parameter verify taking the plaintext and the
stored hash. -/
def authenticate (verify : String → String → Bool) (db : List UserRec)
    (username password : String) : Except HTTPException UserRec :=
  match get_by_username db username with
  | none => .error ⟨401, "Incorrect username or password"⟩
  | some user =>
    if !user.confirmed then .error ⟨401, "Email address not confirmed"⟩
    else if !verify password user.hash_password then
      .error ⟨401, "Incorrect username or password"⟩
    else .ok user

/-- Claim C7: authenticate yields 401 in exactly three cases: absent user,
unconfirmed email, password mismatch.  Absent-user and mismatch share the
generic message, the unconfirmed case has a distinct message, every error is
a 401, and a confirmed user with a matching password is returned. -/
theorem C7_authenticate_cases (verify : String → String → Bool)
    (db : List UserRec) (username password : String) :
    (authenticate verify db username password =
        .error ⟨401, "Incorrect username or password"⟩ ↔
      (get_by_username db username = none ∨
        ∃ u, get_by_username db username = some u ∧ u.confirmed = true ∧
          verify password u.hash_password = false)) ∧
    (authenticate verify db username password =
        .error ⟨401, "Email address not confirmed"⟩ ↔
      ∃ u, get_by_username db username = some u ∧ u.confirmed = false) ∧
    (∀ u, authenticate verify db username password = .ok u ↔
      (get_by_username db username = some u ∧ u.confirmed = true ∧
        verify password u.hash_password = true)) ∧
    ("Incorrect username or password" : String) ≠ "Email address not confirmed" ∧
    (∀ s d, authenticate verify db username password = .error ⟨s, d⟩ → s = 401) := by
  refine ⟨?_, ?_, ?_, by decide, ?_⟩ <;>
    cases h : get_by_username db username with
    | none => simp [authenticate, h]
    | some u =>
      cases hc : u.confirmed <;> cases hv : verify password u.hash_password <;>
        simp_all [authenticate, h, hc, hv]

/-- A value stored in Redis: the blacklist marker string "1" written under
bl-prefixed keys, or the JSON user payload written under user-prefixed
keys. -/
inductive RVal where
  | bl
  | userJson (cu : CachedUser)
deriving DecidableEq, Repr

/-- The Redis keyspace: entries of key, absolute expiry time (Unix seconds)
and value.  SETEX with TTL n at time t yields an entry readable at any
time t' with t' < t + n. -/
abbrev Redis := List (String × Nat × RVal)

/-- redis SETEX: store the value under the key for ttl seconds, replacing
any previous entry for the key. -/
def redis_setex (st : Redis) (key : String) (ttl : Nat) (now : Nat) (v : RVal) : Redis :=
  (key, now + ttl, v) :: st.filter (fun e => e.1 != key)

/-- redis EXISTS at time now: some unexpired entry carries the key. -/
def redis_exists (st : Redis) (now : Nat) (key : String) : Bool :=
  st.any (fun e => e.1 == key && now < e.2.1)

/-- redis GET at time now: the value of the first unexpired entry for the
key, if any. -/
def redis_get (st : Redis) (now : Nat) (key : String) : Option RVal :=
  (st.find? (fun e => e.1 == key && now < e.2.1)).map (fun e => e.2.2)

/-- A decoded JWT payload: the claims read by the services are sub and
exp, either of which a validly signed token may omit, hence both
optional. -/
structure Payload where
  sub : Option String
  exp : Option Nat
deriving DecidableEq, Repr

/-- AuthService.decode_and_validate_access_token.  jwt.decode's signature
check and parse are the opaque parameter sigfn (None models any PyJWTError
other than expiry); PyJWT then rejects a present exp claim with
exp <= now. -/
def decode_and_validate_access_token (sigfn : String → Option Payload)
    (now : Nat) (token : String) : Except HTTPException Payload :=
  match sigfn token with
  | none => .error ⟨401, "Token wrong"⟩
  | some p =>
    match p.exp with
    | some e => if e ≤ now then .error ⟨401, "Token wrong"⟩ else .ok p
    | none => .ok p

/-- cache_user (src/services/cache_user.py): computes
ttl = int(exp - now) — a TypeError when exp is None — then SETEX of the
five-field user payload under the user-prefixed key.  writeOk models
whether the Redis write round trip succeeds; a non-positive ttl is the
Redis server's invalid-expire error.  Nat subtraction: e - now = 0 exactly
when the Python int ttl would be ≤ 0. -/
def cache_user (st : Redis) (writeOk : Bool) (u : UserRec) (token : String)
    (exp : Option Nat) (now : Nat) : Except PyError Redis :=
  match exp with
  | none => .error .typeError
  | some e =>
    if !writeOk then .error .connectionError
    else if e - now = 0 then .error .responseError
    else .ok (redis_setex st ("user:" ++ token) (e - now) now (.userJson (mkCachedUser u)))

/-- AuthService.get_current_user: blacklist check, then cache hit
(constructing a transient User from the five cached fields), then decode,
subject lookup and cache population.  The await of cache_user is not
wrapped in try/except in the source, so its failure propagates out of
get_current_user, which is why the result type is Except PyError. -/
def get_current_user (sigfn : String → Option Payload) (db : List UserRec)
    (st : Redis) (writeOk : Bool) (now : Nat) (token : String) :
    Except PyError (UserObj × Redis) :=
  if redis_exists st now ("bl:" ++ token) then
    .error (.http ⟨401, "Token revoked"⟩)
  else
    match redis_get st now ("user:" ++ token) with
    | some (.userJson cu) => .ok (userFromCache cu, st)
    | _ =>
      match decode_and_validate_access_token sigfn now token with
      | .error e => .error (.http e)
      | .ok p =>
        match p.sub with
        | none => .error (.http ⟨401, "Could not validate credentials"⟩)
        | some uname =>
          if uname = "" then .error (.http ⟨401, "Could not validate credentials"⟩)
          else
            match get_by_username db uname with
            | none => .error (.http ⟨401, "Could not validate credentials"⟩)
            | some u =>
              match cache_user st writeOk u token p.exp now with
              | .error e => .error e
              | .ok st' => .ok (toUserObj u, st')

/-- AuthService.revoke_access_token: decode the token, and when an exp
claim is present (and truthy) SETEX the blacklist marker under the
bl-prefixed key with ttl int(exp - now); writeOk models the Redis write
round trip. -/
def revoke_access_token (sigfn : String → Option Payload) (st : Redis)
    (writeOk : Bool) (now : Nat) (token : String) : Except PyError Redis :=
  match decode_and_validate_access_token sigfn now token with
  | .error e => .error (.http e)
  | .ok p =>
    match p.exp with
    | none => .ok st
    | some e =>
      if e = 0 then .ok st
      else if !writeOk then .error .connectionError
      else if e - now = 0 then .error .responseError
      else .ok (redis_setex st ("bl:" ++ token) (e - now) now .bl)

/-- UserService.update_avatar_url (src/services/user.py): re-reads the user
from the database by email, 404 when absent, 403 unless the stored role is
admin, otherwise writes the new avatar URL through the repository and
returns the refreshed row. -/
def update_avatar_url (db : List UserRec) (email url : String) :
    Except HTTPException (UserRec × List UserRec) :=
  match get_user_by_email db email with
  | none => .error ⟨404, "User not found"⟩
  | some u =>
    if u.role ≠ Role.admin then
      .error ⟨403, "Only admins can change the default avatar."⟩
    else
      .ok ({ u with avatar := some url },
        db.map (fun x => if x.id = u.id then { x with avatar := some url } else x))

/-- Concrete JWT backend for the closed examples: a single validly signed
token with subject alice and expiry 100. -/
def sig1 : String → Option Payload :=
  fun s => if s = "tok1" then some ⟨some "alice", some 100⟩ else none

/-- Concrete database row used by the closed examples. -/
def alice : UserRec :=
  { id := 1
    username := "alice"
    email := "alice@example.com"
    hash_password := "bcrypt-hash"
    avatar := none
    confirmed := true
    role := Role.admin }

/-- One-user database for the closed examples. -/
def db1 : List UserRec := [alice]

/-- The cached payload cache_user would store for alice. -/
def cuAlice : CachedUser := mkCachedUser alice

/-- A cache state holding alice's payload under tok1, expiring at 100. -/
def stCached : Redis := [("user:" ++ "tok1", 100, .userJson cuAlice)]

/-- Claim C1 (code bug): at time 50 the token tok1 is valid, not
blacklisted and not cached, and alice is in the database; when the cache
write fails, get_current_user propagates the cache failure instead of
returning the user it just loaded from the database, while the same call
with a healthy cache returns alice. -/
theorem C1_cache_write_failure_raises :
    get_current_user sig1 db1 [] false 50 "tok1" = .error .connectionError ∧
    get_current_user sig1 db1 [] true 50 "tok1" =
      .ok (toUserObj alice,
        redis_setex [] ("user:" ++ "tok1") 50 50 (.userJson (mkCachedUser alice))) := by
  constructor <;> rfl

/-- Claim C4: revoking a valid access token at time now0 writes the
blacklist entry with ttl exactly e - now0, the token's remaining
time-to-expiry, and at every later time tq strictly before the expiry e a
get_current_user call with the same token fails with 401 Token revoked. -/
theorem C4_blacklist_covers_lifetime (sigfn : String → Option Payload)
    (db : List UserRec) (st : Redis) (writeOk2 : Bool)
    (token : String) (p : Payload) (e now0 tq : Nat)
    (hsig : sigfn token = some p) (hexp : p.exp = some e)
    (hnow : now0 < e) (_hlo : now0 ≤ tq) (hhi : tq < e) :
    revoke_access_token sigfn st true now0 token =
      .ok (redis_setex st ("bl:" ++ token) (e - now0) now0 .bl) ∧
    get_current_user sigfn db
        (redis_setex st ("bl:" ++ token) (e - now0) now0 .bl) writeOk2 tq token =
      .error (.http ⟨401, "Token revoked"⟩) := by
  have h1 : ¬ e ≤ now0 := by omega
  have h2 : ¬ e = 0 := by omega
  have h3 : ¬ e - now0 = 0 := by omega
  refine ⟨by simp [revoke_access_token, decode_and_validate_access_token,
    hsig, hexp, h1, h2, h3], ?_⟩
  have h4 : redis_exists
      (redis_setex st ("bl:" ++ token) (e - now0) now0 .bl) tq ("bl:" ++ token) = true := by
    simp [redis_exists, redis_setex]
    exact Or.inl (by omega)
  simp [get_current_user, h4]

/-- Witness for C4 at token tok1, revoked at time 50 and checked at
time 80, before the expiry 100. -/
theorem C4_blacklist_covers_lifetime_witness :
    (sig1 "tok1" = some ⟨some "alice", some 100⟩) ∧
    ((⟨some "alice", some 100⟩ : Payload).exp = some 100) ∧
    (50 < 100) ∧ (50 ≤ 80) ∧ (80 < 100) ∧
    (revoke_access_token sig1 [] true 50 "tok1" =
        .ok (redis_setex [] ("bl:" ++ "tok1") (100 - 50) 50 .bl) ∧
      get_current_user sig1 db1
          (redis_setex [] ("bl:" ++ "tok1") (100 - 50) 50 .bl) true 80 "tok1" =
        .error (.http ⟨401, "Token revoked"⟩)) :=
  ⟨rfl, rfl, by decide, by decide, by decide,
    C4_blacklist_covers_lifetime sig1 db1 [] true "tok1" ⟨some "alice", some 100⟩
      100 50 80 rfl rfl (by decide) (by decide) (by decide)⟩

/-- Counterexample to claim C9: alice's database role is admin; resolved
through a cache hit she comes back with role None, yet the avatar update
path does not fail its admin check, because update_avatar_url re-reads the
user from the database by email — the call returns the updated user rather
than the 403 the claim predicts. -/
theorem C9_admin_passes_from_cache :
    get_current_user sig1 db1 stCached true 50 "tok1" =
      .ok (userFromCache cuAlice, stCached) ∧
    (userFromCache cuAlice).role = none ∧
    alice.role = Role.admin ∧
    (userFromCache cuAlice).email = some "alice@example.com" ∧
    update_avatar_url db1 "alice@example.com" "http://img.example/a.png" =
      .ok ({ alice with avatar := some "http://img.example/a.png" },
        [{ alice with avatar := some "http://img.example/a.png" }]) := by
  refine ⟨rfl, rfl, rfl, rfl, rfl⟩

/-- Claim C9 as amended: a cache hit in get_current_user returns a User
built from the five cached fields only, with role and password hash unset;
but update_avatar_url takes only the email and re-reads the row from the
database, so a user whose stored role is admin still passes the admin
check when resolved from cache. -/
theorem C9_amended_cache_fields (st : Redis) (db db2 : List UserRec)
    (writeOk : Bool) (now : Nat) (token email url : String)
    (sigfn : String → Option Payload) (cu : CachedUser) (u : UserRec)
    (hbl : redis_exists st now ("bl:" ++ token) = false)
    (hget : redis_get st now ("user:" ++ token) = some (.userJson cu))
    (hfind : get_user_by_email db2 email = some u) (hrole : u.role = Role.admin) :
    get_current_user sigfn db st writeOk now token = .ok (userFromCache cu, st) ∧
    (userFromCache cu).role = none ∧
    (userFromCache cu).hash_password = none ∧
    ∃ u' db2', update_avatar_url db2 email url = .ok (u', db2') ∧
      u'.avatar = some url ∧ u'.role = Role.admin := by
  refine ⟨by simp [get_current_user, hbl, hget], rfl, rfl,
    { u with avatar := some url },
    db2.map (fun x => if x.id = u.id then { x with avatar := some url } else x),
    ?_, rfl, hrole⟩
  simp [update_avatar_url, hfind, hrole]

/-- Witness for the amended C9 on the concrete cached-alice state. -/
theorem C9_amended_cache_fields_witness :
    (redis_exists stCached 50 ("bl:" ++ "tok1") = false) ∧
    (redis_get stCached 50 ("user:" ++ "tok1") = some (.userJson cuAlice)) ∧
    (get_user_by_email db1 "alice@example.com" = some alice) ∧
    (alice.role = Role.admin) ∧
    (get_current_user sig1 db1 stCached true 50 "tok1" =
        .ok (userFromCache cuAlice, stCached) ∧
      (userFromCache cuAlice).role = none ∧
      (userFromCache cuAlice).hash_password = none ∧
      ∃ u' db2', update_avatar_url db1 "alice@example.com" "http://u" = .ok (u', db2') ∧
        u'.avatar = some "http://u" ∧ u'.role = Role.admin) :=
  ⟨rfl, rfl, rfl, rfl,
    C9_amended_cache_fields stCached db1 db1 true 50 "tok1" "alice@example.com"
      "http://u" sig1 cuAlice alice rfl rfl rfl rfl⟩

/-- src/entity/models.py RefreshToken row: token_hash carries a unique
constraint, revoked_at is nullable, timestamps are Unix seconds. -/
structure RefreshToken where
  id : Nat
  user_id : Nat
  token_hash : String
  created_at : Nat
  expired_at : Nat
  revoked_at : Option Nat
  ip_address : Option String
  user_agent : Option String
deriving DecidableEq, Repr

/-- RefreshTokenRepository.get_by_token_hash: SELECT by hash,
scalars().first(). -/
def get_by_token_hash (db : List RefreshToken) (token_hash : String) :
    Option RefreshToken :=
  db.find? (fun r => r.token_hash == token_hash)

/-- RefreshTokenRepository.get_active_token: SELECT by hash with
expired_at > current_time and revoked_at IS NULL, scalars().first(). -/
def get_active_token (db : List RefreshToken) (token_hash : String)
    (current_time : Nat) : Option RefreshToken :=
  db.find? (fun r =>
    r.token_hash == token_hash &&
    decide (current_time < r.expired_at) &&
    r.revoked_at == none)

/-- RefreshTokenRepository.revoke_token: sets revoked_at = now on the
fetched row (identified by its primary key) and commits. -/
def revoke_token (db : List RefreshToken) (rt : RefreshToken) (now : Nat) :
    List RefreshToken :=
  db.map (fun r => if r.id = rt.id then { r with revoked_at := some now } else r)

/-- AuthService.revoke_refresh_token: hash the raw token (the SHA-256 of
_hash_token is the opaque parameter hashTok), look the record up, and
revoke it only when found and not already revoked. -/
def revoke_refresh_token (hashTok : String → String) (db : List RefreshToken)
    (raw : String) (now : Nat) : List RefreshToken :=
  match get_by_token_hash db (hashTok raw) with
  | none => db
  | some rt => if rt.revoked_at = none then revoke_token db rt now else db

/-- find? by token hash returns the unique row carrying that hash. -/
theorem find_hash_unique (l : List RefreshToken) (h : String) (r : RefreshToken)
    (hr : r ∈ l) (hh : r.token_hash = h)
    (huniq : ∀ x ∈ l, x.token_hash = h → x = r) :
    l.find? (fun x => x.token_hash == h) = some r := by
  induction l with
  | nil => cases hr
  | cons y ys ih =>
    by_cases hy : y.token_hash = h
    · have hyr : y = r := huniq y (List.mem_cons_self y ys) hy
      subst hyr
      simp [List.find?_cons_of_pos, hy]
    · have hyr : y ≠ r := fun hEq => hy (by rw [hEq]; exact hh)
      have hr' : r ∈ ys := by
        rcases List.mem_cons.mp hr with h1 | h2
        · exact absurd h1.symm hyr
        · exact h2
      have hstep : List.find? (fun x => x.token_hash == h) (y :: ys) =
          List.find? (fun x => x.token_hash == h) ys := by
        simp [hy]
      rw [hstep]
      exact ih hr' (fun x hx => huniq x (List.mem_cons_of_mem _ hx))

/-- Updating the revoked_at of a row preserves every other column. -/
theorem revoke_map_preserves (rt : RefreshToken) (now : Nat) (x : RefreshToken) :
    (if x.id = rt.id then { x with revoked_at := some now } else x).token_hash
        = x.token_hash ∧
    (if x.id = rt.id then { x with revoked_at := some now } else x).user_id
        = x.user_id ∧
    (if x.id = rt.id then { x with revoked_at := some now } else x).expired_at
        = x.expired_at ∧
    (if x.id = rt.id then { x with revoked_at := some now } else x).id = x.id := by
  by_cases hx : x.id = rt.id <;> simp [hx]

/-- Claim C5: after revoke_refresh_token on the raw token of a stored row
(token_hash is unique, as in the schema), get_by_token_hash still returns
the row with revoked_at set to a non-null value and the other columns
intact, while get_active_token for that hash returns nothing at every
time: revocation marks the record, it does not delete it. -/
theorem C5_revocation_marks_not_deletes (hashTok : String → String)
    (db : List RefreshToken) (raw : String) (r : RefreshToken) (now : Nat)
    (hmem : r ∈ db) (hhash : r.token_hash = hashTok raw)
    (huniq : ∀ x ∈ db, x.token_hash = hashTok raw → x = r) :
    ∃ r', get_by_token_hash (revoke_refresh_token hashTok db raw now)
        (hashTok raw) = some r' ∧
      r'.revoked_at.isSome = true ∧
      r'.id = r.id ∧ r'.user_id = r.user_id ∧
      r'.token_hash = r.token_hash ∧ r'.expired_at = r.expired_at ∧
      ∀ t, get_active_token (revoke_refresh_token hashTok db raw now)
        (hashTok raw) t = none := by
  have hfind : get_by_token_hash db (hashTok raw) = some r :=
    find_hash_unique db (hashTok raw) r hmem hhash huniq
  cases hrev : r.revoked_at with
  | some v =>
    have hdb : revoke_refresh_token hashTok db raw now = db := by
      simp [revoke_refresh_token, hfind, hrev]
    refine ⟨r, by rw [hdb]; exact hfind, by simp [hrev], rfl, rfl, rfl, rfl, ?_⟩
    intro t
    rw [hdb]
    refine List.find?_eq_none.mpr (fun x hx => ?_)
    by_cases hxh : x.token_hash = hashTok raw
    · have hxr : x = r := huniq x hx hxh
      subst hxr
      simp [hrev]
    · simp [hxh]
  | none =>
    have hdb : revoke_refresh_token hashTok db raw now = revoke_token db r now := by
      simp [revoke_refresh_token, hfind, hrev]
    have hkey : ∀ x ∈ revoke_token db r now, x.token_hash = hashTok raw →
        x = { r with revoked_at := some now } := by
      intro x hx hxh
      obtain ⟨x0, hx0, hfx0⟩ := List.mem_map.mp hx
      by_cases hid : x0.id = r.id
      · simp only [hid, if_pos] at hfx0
        have hx0h : x0.token_hash = hashTok raw := by
          rw [← hfx0] at hxh
          exact hxh
        rw [huniq x0 hx0 hx0h] at hfx0
        exact hfx0.symm
      · simp only [hid, if_neg, not_false_iff] at hfx0
        rw [← hfx0] at hxh
        exact absurd (by rw [huniq x0 hx0 hxh]) hid
    have hmem' : ({ r with revoked_at := some now } : RefreshToken) ∈
        revoke_token db r now := by
      have h0 := List.mem_map_of_mem
        (fun x => if x.id = r.id then { x with revoked_at := some now } else x) hmem
      simpa [revoke_token] using h0
    refine ⟨{ r with revoked_at := some now }, ?_, rfl, rfl, rfl, rfl, rfl, ?_⟩
    · rw [hdb]
      exact find_hash_unique _ (hashTok raw) _ hmem' hhash hkey
    · intro t
      rw [hdb]
      refine List.find?_eq_none.mpr (fun x hx => ?_)
      by_cases hxh : x.token_hash = hashTok raw
      · rw [hkey x hx hxh]
        simp
      · simp [hxh]

/-- An opaque but concrete stand-in for SHA-256 in the closed examples. -/
def hashId : String → String := fun s => "sha:" ++ s

/-- A live refresh-token row for the closed examples. -/
def rtEx : RefreshToken :=
  { id := 1, user_id := 1, token_hash := "sha:" ++ "raw1", created_at := 0,
    expired_at := 1000, revoked_at := none, ip_address := none, user_agent := none }

/-- The same row after a first revocation at time 5. -/
def rtRevoked : RefreshToken := { rtEx with revoked_at := some 5 }

/-- Witness for C5 on a one-row database. -/
theorem C5_revocation_marks_not_deletes_witness :
    (rtEx ∈ [rtEx]) ∧ (rtEx.token_hash = hashId "raw1") ∧
    (∀ x ∈ [rtEx], x.token_hash = hashId "raw1" → x = rtEx) ∧
    (∃ r', get_by_token_hash (revoke_refresh_token hashId [rtEx] "raw1" 7)
        (hashId "raw1") = some r' ∧
      r'.revoked_at.isSome = true ∧
      r'.id = rtEx.id ∧ r'.user_id = rtEx.user_id ∧
      r'.token_hash = rtEx.token_hash ∧ r'.expired_at = rtEx.expired_at ∧
      ∀ t, get_active_token (revoke_refresh_token hashId [rtEx] "raw1" 7)
        (hashId "raw1") t = none) :=
  ⟨by decide, by decide, by decide,
    C5_revocation_marks_not_deletes hashId [rtEx] "raw1" rtEx 7
      (by decide) (by decide) (by decide)⟩

/-- Claim C6: when the record matching the raw token already has
revoked_at set, revoke_refresh_token leaves the database exactly as it
was: the second revocation performs no mutation. -/
theorem C6_revoke_refresh_token_idempotent (hashTok : String → String)
    (db : List RefreshToken) (raw : String) (now v0 : Nat) (rt : RefreshToken)
    (hfind : get_by_token_hash db (hashTok raw) = some rt)
    (hrev : rt.revoked_at = some v0) :
    revoke_refresh_token hashTok db raw now = db := by
  simp [revoke_refresh_token, hfind, hrev]

/-- Witness for C6 on a one-row database whose row is already revoked. -/
theorem C6_revoke_refresh_token_idempotent_witness :
    (get_by_token_hash [rtRevoked] (hashId "raw1") = some rtRevoked) ∧
    (rtRevoked.revoked_at = some 5) ∧
    revoke_refresh_token hashId [rtRevoked] "raw1" 99 = [rtRevoked] :=
  ⟨by decide, by decide,
    C6_revoke_refresh_token_idempotent hashId [rtRevoked] "raw1" 99 5 rtRevoked
      (by decide) (by decide)⟩

/-- A calendar date (proleptic Gregorian), as Python datetime.date. -/
structure Date where
  year : Nat
  month : Nat
  day : Nat
deriving DecidableEq, Repr

/-- Gregorian leap-year rule. -/
def isLeap (y : Nat) : Bool :=
  (y % 4 == 0 && y % 100 != 0) || (y % 400 == 0)

/-- Days in a month of a given year. -/
def daysInMonth (y : Nat) : Nat → Nat
  | 1 => 31
  | 2 => if isLeap y then 29 else 28
  | 3 => 31
  | 4 => 30
  | 5 => 31
  | 6 => 30
  | 7 => 31
  | 8 => 31
  | 9 => 30
  | 10 => 31
  | 11 => 30
  | 12 => 31
  | _ => 31

/-- The calendar successor of a date. -/
def nextDay (d : Date) : Date :=
  if d.day < daysInMonth d.year d.month then ⟨d.year, d.month, d.day + 1⟩
  else if d.month < 12 then ⟨d.year, d.month + 1, 1⟩
  else ⟨d.year + 1, 1, 1⟩

/-- date + timedelta(days = n). -/
def addDays (d : Date) : Nat → Date
  | 0 => d
  | n + 1 => nextDay (addDays d n)

/-- src/entity/models.py Contact row.  The created_at and updated_at
timestamps are server-maintained column defaults (func.now / onupdate),
never touched by the repository code modelled here, and are omitted. -/
structure Contact where
  id : Nat
  first_name : String
  last_name : String
  email : String
  phone_number : String
  birthday : Date
  additional_info : Option String
  user_id : Option Nat
deriving DecidableEq, Repr

/-- src/schemas/contact_schema.py ContactUpdateSchema: every field
optional; none models a field absent from the request body (pydantic
exclude_unset drops it), some v a supplied value.  A field supplied as an
explicit null for a non-nullable column would be rejected by the database
at commit and is outside this model. -/
structure ContactUpdateSchema where
  first_name : Option String
  last_name : Option String
  email : Option String
  phone_number : Option String
  birthday : Option Date
  additional_info : Option String
deriving DecidableEq, Repr

/-- One key-value pair of body.model_dump(exclude_unset=True). -/
inductive FieldVal where
  | first_name (v : String)
  | last_name (v : String)
  | email (v : String)
  | phone_number (v : String)
  | birthday (v : Date)
  | additional_info (v : String)
deriving DecidableEq, Repr

/-- body.model_dump(exclude_unset=True): the supplied fields, in pydantic
declaration order. -/
def model_dump_exclude_unset (b : ContactUpdateSchema) : List FieldVal :=
  (b.first_name.map FieldVal.first_name).toList ++
  (b.last_name.map FieldVal.last_name).toList ++
  (b.email.map FieldVal.email).toList ++
  (b.phone_number.map FieldVal.phone_number).toList ++
  (b.birthday.map FieldVal.birthday).toList ++
  (b.additional_info.map FieldVal.additional_info).toList

/-- setattr(contact, key, value) for one dumped field. -/
def setattr_field (c : Contact) : FieldVal → Contact
  | .first_name v => { c with first_name := v }
  | .last_name v => { c with last_name := v }
  | .email v => { c with email := v }
  | .phone_number v => { c with phone_number := v }
  | .birthday v => { c with birthday := v }
  | .additional_info v => { c with additional_info := some v }

/-- The setattr loop of ContactRepository.update_contact. -/
def apply_update (c : Contact) (b : ContactUpdateSchema) : Contact :=
  (model_dump_exclude_unset b).foldl setattr_field c

/-- ContactRepository.get_contact_by_id: SELECT by primary key,
scalar_one_or_none. -/
def get_contact_by_id (db : List Contact) (contact_id : Nat) : Option Contact :=
  db.find? (fun c => c.id == contact_id)

/-- ContactRepository.update_contact: fetch by id, run the setattr loop on
the supplied fields, commit; returns the refreshed row (None if absent)
together with the resulting table. -/
def repo_update_contact (db : List Contact) (contact_id : Nat)
    (body : ContactUpdateSchema) : Option Contact × List Contact :=
  match get_contact_by_id db contact_id with
  | none => (none, db)
  | some c =>
    (some (apply_update c body),
      db.map (fun x => if x.id = contact_id then apply_update x body else x))

/-- ContactRepository.remove_contact: fetch by id, delete the row (primary
keys are unique) and commit; returns the deleted row (None if absent)
together with the resulting table. -/
def repo_remove_contact (db : List Contact) (contact_id : Nat) :
    Option Contact × List Contact :=
  match get_contact_by_id db contact_id with
  | none => (none, db)
  | some c => (some c, db.filter (fun x => x.id != contact_id))

/-- ContactService.get_contact: loads the row by id and hides it (returns
None) when its user_id differs from the current user's id. -/
def service_get_contact (db : List Contact) (uid contact_id : Nat) :
    Option Contact :=
  match get_contact_by_id db contact_id with
  | none => none
  | some c => if c.user_id ≠ some uid then none else some c

/-- ContactService.update_contact: ownership check via service_get_contact,
then the repository update; None means not found (or not owned). -/
def service_update_contact (db : List Contact) (uid contact_id : Nat)
    (body : ContactUpdateSchema) : Option Contact × List Contact :=
  match service_get_contact db uid contact_id with
  | none => (none, db)
  | some _ => repo_update_contact db contact_id body

/-- ContactService.remove_contact: ownership check via service_get_contact,
then the repository delete; None means not found (or not owned). -/
def service_remove_contact (db : List Contact) (uid contact_id : Nat) :
    Option Contact × List Contact :=
  match service_get_contact db uid contact_id with
  | none => (none, db)
  | some _ => repo_remove_contact db contact_id

/-- The SQL filter of ContactRepository.get_upcoming_birthdays: the
birthday's month/day either shares today's month with day >= today's day,
or shares (today + 7 days)'s month with day <= that day. -/
def birthday_filter (today next_week : Date) (b : Date) : Bool :=
  (b.month == today.month && today.day ≤ b.day) ||
  (b.month == next_week.month && b.day ≤ next_week.day)

/-- ContactRepository.get_upcoming_birthdays: the user's contacts passing
birthday_filter with next_week = today + 7 days. -/
def get_upcoming_birthdays (db : List Contact) (user_id : Nat) (today : Date) :
    List Contact :=
  db.filter (fun c =>
    c.user_id == some user_id && birthday_filter today (addDays today 7) c.birthday)

/-- Modelled from the spec's words, for comparison with the code: a
birthday's month/day pair lies within the 7-day forward window when it
equals the month/day of today + k for some k between 0 and 7. -/
def inWindow (today : Date) (b : Date) : Bool :=
  (List.range 8).any (fun k =>
    (addDays today k).month == b.month && (addDays today k).day == b.day)

/-- Claim C2: a contact that exists but belongs to another user is
invisible to the service: get_contact returns None, update and remove
return None and leave the table untouched, exactly as for a missing id. -/
theorem C2_ownership_scoping (db : List Contact) (uid contact_id : Nat)
    (c : Contact) (body : ContactUpdateSchema)
    (hfind : get_contact_by_id db contact_id = some c)
    (hown : c.user_id ≠ some uid) :
    service_get_contact db uid contact_id = none ∧
    service_update_contact db uid contact_id body = (none, db) ∧
    service_remove_contact db uid contact_id = (none, db) ∧
    service_get_contact db uid contact_id = service_get_contact [] uid contact_id := by
  have h1 : service_get_contact db uid contact_id = none := by
    simp [service_get_contact, hfind, hown]
  refine ⟨h1, by simp [service_update_contact, h1],
    by simp [service_remove_contact, h1], by rw [h1]; rfl⟩

/-- A contact owned by user 2, used in the closed examples. -/
def cBob : Contact :=
  { id := 10
    first_name := "Bob"
    last_name := "Stone"
    email := "bob@example.com"
    phone_number := "12345"
    birthday := ⟨1990, 3, 31⟩
    additional_info := none
    user_id := some 2 }

/-- An update body supplying a first name and a note, nothing else. -/
def bodyEx : ContactUpdateSchema :=
  { first_name := some "Rob"
    last_name := none
    email := none
    phone_number := none
    birthday := none
    additional_info := some "friend" }

/-- Witness for C2: user 1 asking for user 2's contact. -/
theorem C2_ownership_scoping_witness :
    (get_contact_by_id [cBob] 10 = some cBob) ∧
    (cBob.user_id ≠ some 1) ∧
    (service_get_contact [cBob] 1 10 = none ∧
      service_update_contact [cBob] 1 10 bodyEx = (none, [cBob]) ∧
      service_remove_contact [cBob] 1 10 = (none, [cBob]) ∧
      service_get_contact [cBob] 1 10 = service_get_contact [] 1 10) :=
  ⟨by decide, by decide,
    C2_ownership_scoping [cBob] 1 10 cBob bodyEx (by decide) (by decide)⟩

/-- Counterexample to claim C3: on 2024-03-01 the 7-day window runs to
2024-03-08, yet the query returns the owner's contact whose birthday is
March 31 — a month/day pair outside the window — because the first
disjunct of the filter matches the whole rest of the current month. -/
theorem C3_counterexample :
    get_upcoming_birthdays [cBob] 2 ⟨2024, 3, 1⟩ = [cBob] ∧
    inWindow ⟨2024, 3, 1⟩ cBob.birthday = false := by
  exact ⟨by decide, by decide⟩

/-- Claim C3 as amended: get_upcoming_birthdays returns exactly the
contacts of the user whose birthday month/day satisfies the two-disjunct
filter (same month as today with day >= today's, or same month as
today + 7 with day <= that day); this filter is not membership in the
7-day window — it over-matches the rest of the current month. -/
theorem C3_amended_filter_characterization (db : List Contact) (uid : Nat)
    (today : Date) (c : Contact) :
    c ∈ get_upcoming_birthdays db uid today ↔
      c ∈ db ∧ c.user_id = some uid ∧
        ((c.birthday.month = today.month ∧ today.day ≤ c.birthday.day) ∨
         (c.birthday.month = (addDays today 7).month ∧
           c.birthday.day ≤ (addDays today 7).day)) := by
  simp [get_upcoming_birthdays, List.mem_filter, birthday_filter, and_assoc]

/-- Every column of the setattr loop's result: a supplied field takes the
supplied value, an unsupplied one keeps the previous value, and id and
user_id are never part of the dump. -/
theorem apply_update_fields (c : Contact) (b : ContactUpdateSchema) :
    (apply_update c b).id = c.id ∧
    (apply_update c b).user_id = c.user_id ∧
    (apply_update c b).first_name = b.first_name.getD c.first_name ∧
    (apply_update c b).last_name = b.last_name.getD c.last_name ∧
    (apply_update c b).email = b.email.getD c.email ∧
    (apply_update c b).phone_number = b.phone_number.getD c.phone_number ∧
    (apply_update c b).birthday = b.birthday.getD c.birthday ∧
    (apply_update c b).additional_info =
      (match b.additional_info with
        | some v => some v
        | none => c.additional_info) := by
  obtain ⟨f1, f2, f3, f4, f5, f6⟩ := b
  cases f1 <;> cases f2 <;> cases f3 <;> cases f4 <;> cases f5 <;> cases f6 <;>
    simp [apply_update, model_dump_exclude_unset, setattr_field]

/-- Claim C8: on an existing contact, update_contact returns a row where
each supplied field carries the supplied value, each unsupplied field
keeps its previous value, and the id and owner are unchanged. -/
theorem C8_partial_update (db : List Contact) (contact_id : Nat)
    (body : ContactUpdateSchema) (c : Contact)
    (hfind : get_contact_by_id db contact_id = some c) :
    ∃ c', (repo_update_contact db contact_id body).1 = some c' ∧
      c'.id = c.id ∧ c'.user_id = c.user_id ∧
      (∀ v, body.first_name = some v → c'.first_name = v) ∧
      (body.first_name = none → c'.first_name = c.first_name) ∧
      (∀ v, body.last_name = some v → c'.last_name = v) ∧
      (body.last_name = none → c'.last_name = c.last_name) ∧
      (∀ v, body.email = some v → c'.email = v) ∧
      (body.email = none → c'.email = c.email) ∧
      (∀ v, body.phone_number = some v → c'.phone_number = v) ∧
      (body.phone_number = none → c'.phone_number = c.phone_number) ∧
      (∀ v, body.birthday = some v → c'.birthday = v) ∧
      (body.birthday = none → c'.birthday = c.birthday) ∧
      (∀ v, body.additional_info = some v → c'.additional_info = some v) ∧
      (body.additional_info = none → c'.additional_info = c.additional_info) := by
  obtain ⟨hid, huid, h1, h2, h3, h4, h5, h6⟩ := apply_update_fields c body
  refine ⟨apply_update c body, by simp [repo_update_contact, hfind], hid, huid,
    fun v hv => by rw [h1, hv]; rfl, fun hv => by rw [h1, hv]; rfl,
    fun v hv => by rw [h2, hv]; rfl, fun hv => by rw [h2, hv]; rfl,
    fun v hv => by rw [h3, hv]; rfl, fun hv => by rw [h3, hv]; rfl,
    fun v hv => by rw [h4, hv]; rfl, fun hv => by rw [h4, hv]; rfl,
    fun v hv => by rw [h5, hv]; rfl, fun hv => by rw [h5, hv]; rfl,
    fun v hv => by rw [h6, hv], fun hv => by rw [h6, hv]⟩

/-- Witness for C8: updating Bob's first name and note only. -/
theorem C8_partial_update_witness :
    (get_contact_by_id [cBob] 10 = some cBob) ∧
    (∃ c', (repo_update_contact [cBob] 10 bodyEx).1 = some c' ∧
      c'.id = cBob.id ∧ c'.user_id = cBob.user_id ∧
      (∀ v, bodyEx.first_name = some v → c'.first_name = v) ∧
      (bodyEx.first_name = none → c'.first_name = cBob.first_name) ∧
      (∀ v, bodyEx.last_name = some v → c'.last_name = v) ∧
      (bodyEx.last_name = none → c'.last_name = cBob.last_name) ∧
      (∀ v, bodyEx.email = some v → c'.email = v) ∧
      (bodyEx.email = none → c'.email = cBob.email) ∧
      (∀ v, bodyEx.phone_number = some v → c'.phone_number = v) ∧
      (bodyEx.phone_number = none → c'.phone_number = cBob.phone_number) ∧
      (∀ v, bodyEx.birthday = some v → c'.birthday = v) ∧
      (bodyEx.birthday = none → c'.birthday = cBob.birthday) ∧
      (∀ v, bodyEx.additional_info = some v → c'.additional_info = some v) ∧
      (bodyEx.additional_info = none → c'.additional_info = cBob.additional_info)) :=
  ⟨by decide, C8_partial_update [cBob] 10 bodyEx cBob (by decide)⟩

/-- Python attribute access user.confirmed: raises AttributeError when the
lookup returned None. -/
def getattr_confirmed : Option UserRec → Except PyError Bool
  | none => .error .attributeError
  | some u => .ok u.confirmed

/-- The request_email route handler (src/routes/users.py): looks the user
up by email, reads user.confirmed, and only then guards on user before
scheduling the confirmation email; the Bool in the result records whether
the email task was scheduled. -/
def request_email_route (db : List UserRec) (email : String) :
    Except PyError (String × Bool) := do
  let user := get_user_by_email db email
  let confirmed ← getattr_confirmed user
  if confirmed then
    return ("Your email is already confirmed", false)
  if user.isSome then
    return ("Check your email to confirm your address", true)
  return ("Check your email to confirm your address", false)

/-- Claim C10: when no user carries the requested email, the handler
dereferences None and surfaces an AttributeError instead of any message;
in particular no execution with an absent user ever reaches the if-user
guard or returns an ok result. -/
theorem C10_request_email_none_raises (db : List UserRec) (email : String)
    (h : get_user_by_email db email = none) :
    request_email_route db email = .error .attributeError ∧
    ∀ msg sent, request_email_route db email ≠ .ok (msg, sent) := by
  have h1 : request_email_route db email = .error .attributeError := by
    unfold request_email_route
    rw [h]
    rfl
  exact ⟨h1, fun msg sent hok => by rw [h1] at hok; cases hok⟩

/-- Witness for C10: the one-user database has no user with the requested
email. -/
theorem C10_request_email_none_raises_witness :
    (get_user_by_email db1 "nobody@example.com" = none) ∧
    (request_email_route db1 "nobody@example.com" = .error .attributeError ∧
      ∀ msg sent, request_email_route db1 "nobody@example.com" ≠ .ok (msg, sent)) :=
  ⟨by decide, C10_request_email_none_raises db1 "nobody@example.com" (by decide)⟩

end HW12
